import Mathlib

/-!
# pilot-discovery bootstrap (`cmd/pilot-discovery/main.go`)

A shallow embedding of the `discovery` command of Istio Pilot: the flag
binding done by `init`, the run function `discoveryCmd.RunE` with its two
platform branches, and the exit path of `main`.

The run function is stateful (it mutates the global `flags`) and talks to
collaborators that live outside the file (the Kubernetes client, the TPR
client, the mesh-config reader, the aggregate config store, the discovery
service, the VMs registry client).  The embedding passes `flags` explicitly,
takes the outcome of every collaborator call from a `World`, and records each
collaborator call, each `go` statement and the final `cmd.WaitSignal` in a
trace, in program order.  Logging (`glog`, `spew`) has no effect on the
result and is left out.  After a successful start the run function blocks in
`cmd.WaitSignal` until the process is told to terminate; the outcome of such a
run is the one it has when `cmd.WaitSignal` returns.
-/

namespace Pilot

/-! ## Errors -/

/-- Go `error` values as they flow through the run function: an error handed
back by a collaborator, either an ordinary one (`plain`) or a
`*multierror.Error` holding a list of errors (`multi`; a typed nil pointer
counts as the empty list, which is what `multierror.Prefix` turns it into), the
result of `errwrap.Wrapf(format, inner)` (`wrapped`), and the result of
`fmt.Errorf(format, arg)` (`errorf`). -/
inductive GoError where
  | plain (msg : String)
  | multi (errors : List GoError)
  | wrapped (format : String) (inner : GoError)
  | errorf (format : String) (arg : GoError)

/-- The call `errwrap.Wrapf(format, err)`. -/
def errwrapWrapf (format : String) (err : GoError) : GoError :=
  .wrapped format err

/-- The call `multierror.Prefix(err, prefix)` on a non-nil error: the format is
the prefix, one blank and the placeholder for the error text; inside a
`*multierror.Error` every error of the list is wrapped with it and the same
value is returned, any other error is wrapped as a whole. -/
def multierrorPrefix (err : GoError) (pfx : String) : GoError :=
  match err with
  | .multi errors => .multi (errors.map (errwrapWrapf (pfx ++ " \x7b\x7berr\x7d\x7d")))
  | .plain msg => errwrapWrapf (pfx ++ " \x7b\x7berr\x7d\x7d") (.plain msg)
  | .wrapped format inner =>
    errwrapWrapf (pfx ++ " \x7b\x7berr\x7d\x7d") (.wrapped format inner)
  | .errorf format arg => errwrapWrapf (pfx ++ " \x7b\x7berr\x7d\x7d") (.errorf format arg)

/-- The call `fmt.Errorf("failed to create discovery service: %v", err)`. -/
def errorfDiscovery (err : GoError) : GoError :=
  .errorf "failed to create discovery service: %v" err

/-! ## Data model -/

/-- The type `Adapter`, a string. -/
abbrev Adapter := String

/-- The constant `KubernetesAdapter`. -/
def KubernetesAdapter : Adapter := "Kubernetes"

/-- The constant `VMsAdapter`. -/
def VMsAdapter : Adapter := "VMs"

/-- The struct `VMsArgs`. -/
structure VMsArgs where
  config : String
  serverURL : String
  authToken : String
  deriving DecidableEq, Repr

/-- The struct `kube.ControllerOptions`, with the fields `main.go` binds and reads.
`ResyncPeriod` is a `time.Duration`, counted in nanoseconds. -/
structure ControllerOptions where
  Namespace : String
  ResyncPeriod : Int
  DomainSuffix : String
  deriving DecidableEq, Repr

/-- The struct `envoy.DiscoveryServiceOptions`, with the fields `main.go` binds. -/
structure DiscoveryServiceOptions where
  Port : Int
  EnableProfiling : Bool
  EnableCaching : Bool
  deriving DecidableEq, Repr

/-- The struct `args`, the type of the global `flags`. -/
structure args where
  kubeconfig : String
  meshconfig : String
  controllerOptions : ControllerOptions
  discoveryOptions : DiscoveryServiceOptions
  adapter : Adapter
  vmsArgs : VMsArgs
  deriving DecidableEq, Repr

/-- The enumeration `proxyconfig.ProxyMeshConfig_IngressControllerMode`. -/
inductive IngressControllerMode where
  | OFF
  | DEFAULT
  | STRICT
  deriving DecidableEq, Repr

/-- The struct `proxyconfig.ProxyMeshConfig`: the ingress mode, which the run function
branches on, and the remaining settings, which it only hands through. -/
structure ProxyMeshConfig where
  IngressControllerMode : IngressControllerMode
  rest : String
  deriving DecidableEq, Repr

/-- The configuration kinds named in `main.go`. -/
inductive ProtoSchema where
  | RouteRuleDescriptor
  | DestinationPolicyDescriptor
  deriving DecidableEq, Repr

/-- The type `model.ConfigDescriptor`, a slice of kinds. -/
abbrev ConfigDescriptor := List ProtoSchema

/-- The descriptor literal used by both branches. -/
def routingDescriptor : ConfigDescriptor :=
  [.RouteRuleDescriptor, .DestinationPolicyDescriptor]

/-- The client returned by `kube.CreateInterface(kubeconfig)`. -/
structure KubeClient where
  kubeconfig : String
  deriving DecidableEq, Repr

/-- The client returned by `tpr.NewClient(kubeconfig, descriptor, namespace)`. -/
structure TprClient where
  kubeconfig : String
  descriptor : ConfigDescriptor
  namespace_ : String
  deriving DecidableEq, Repr

/-- The struct of `vmsconfig.Config.A8Registry`. -/
structure Registry where
  URL : String
  Token : String
  deriving DecidableEq, Repr

/-- The struct `vmsconfig.Config`; the run function reads and writes `A8Registry` only. -/
structure VmsConfig where
  A8Registry : Registry
  deriving DecidableEq, Repr

/-- The struct `vmsclient.Config` as filled in by the run function. -/
structure VmsClientConfig where
  URL : String
  AuthToken : String
  deriving DecidableEq, Repr

/-- The client returned by `vmsclient.New(conf)`. -/
structure VmsClient where
  conf : VmsClientConfig
  deriving DecidableEq, Repr

/-- The service controllers: `kube.NewController(client, mesh, options)` and
`vms.NewController(vms.ControllerConfig{Discovery, Mesh})`. -/
inductive ServiceController where
  | kube (client : KubeClient) (mesh : ProxyMeshConfig) (options : ControllerOptions)
  | vms (discovery : VmsClient) (mesh : ProxyMeshConfig)
  deriving DecidableEq, Repr

/-- The values of type `model.ConfigStoreCache` the run function builds:
`tpr.NewController(client, resync)`, `ingress.NewController(client, mesh,
options)`, the store returned by `aggregate.MakeCache(sources)`, and
`memory.NewController(memory.Make(descriptor))`. -/
inductive ConfigStoreCache where
  | tpr (client : TprClient) (resync : Int)
  | ingress (client : KubeClient) (mesh : ProxyMeshConfig) (options : ControllerOptions)
  | aggregate (sources : List ConfigStoreCache)
  | memory (descriptor : ConfigDescriptor)

/-- The struct `proxy.Environment`.  `IstioConfigStore` holds the store that
`model.MakeIstioStore` wraps; `SecretRegistry` holds the client that
`kube.MakeSecretRegistry` wraps and is unset on the VMs branch. -/
structure Environment where
  ServiceDiscovery : ServiceController
  ServiceAccounts : ServiceController
  IstioConfigStore : ConfigStoreCache
  SecretRegistry : Option KubeClient
  Mesh : ProxyMeshConfig

/-- The service returned by `envoy.NewDiscoveryService(...)`. -/
structure DiscoveryService where
  services : ServiceController
  config : ConfigStoreCache
  environment : Environment
  options : DiscoveryServiceOptions

/-- The syncer returned by `ingress.NewStatusSyncer(mesh, client, options)`. -/
structure StatusSyncer where
  mesh : ProxyMeshConfig
  client : KubeClient
  options : ControllerOptions
  deriving DecidableEq, Repr

/-- A `chan struct{}`, identified by its allocation. -/
structure Chan where
  id : Nat
  deriving DecidableEq, Repr

/-- The calls the run function starts with a `go` statement, with the
arguments each call is given. -/
inductive Task where
  | serviceControllerRun (c : ServiceController) (stop : Chan)
  | configControllerRun (c : ConfigStoreCache) (stop : Chan)
  | discoveryRun (d : DiscoveryService)
  | ingressSyncerRun (s : StatusSyncer) (stop : Chan)

/-- One entry of the trace of a run. -/
inductive Event where
  | createInterface (kubeconfig : String)
  | getenv (name : String)
  | readMeshConfig (path : String)
  | tprNewClient (kubeconfig : String) (descriptor : ConfigDescriptor) (ns : String)
  | registerResources (client : TprClient)
  | makeCache (sources : List ConfigStoreCache)
  | newDiscoveryService (services : ServiceController) (config : ConfigStoreCache)
      (environment : Environment) (options : DiscoveryServiceOptions)
  | loadFromFile (path : String) (cfg : VmsConfig)
  | vmsClientNew (conf : VmsClientConfig)
  | makeChan (c : Chan)
  | go (t : Task)
  | waitSignal (stop : Chan)

/-- Everything the run function obtains from outside the file: the process
environment, the package-level defaults it copies, the channel `make` hands
out, and for every fallible collaborator call whether it fails (and with which
error) and, where the call yields data the run function inspects, that data. -/
structure World where
  getenv : String → String
  defaultConfig : VmsConfig
  defaultMeshConfig : ProxyMeshConfig
  freshChan : Chan
  createInterface : String → Option GoError
  readMeshConfig : String → Except GoError ProxyMeshConfig
  tprNewClient : String → ConfigDescriptor → String → Option GoError
  registerResources : TprClient → Option GoError
  makeCache : List ConfigStoreCache → Option GoError
  newDiscoveryService : ServiceController → ConfigStoreCache → Environment →
    DiscoveryServiceOptions → Option GoError
  loadFromFile : String → VmsConfig → Except GoError VmsConfig
  vmsClientNew : VmsClientConfig → Option GoError

/-- What a run leaves behind: the returned error (`none` is Go's `nil`), the
global `flags` after the run, and the trace. -/
structure Outcome where
  err : Option GoError
  flags : args
  trace : List Event

/-! ## The run function -/

/-- The body of `if flags.adapter == KubernetesAdapter { ... }`.  The code after
the choice of the config controller (environment, discovery service, launches)
is shared by both arms of that choice; it is the local function `startup`. -/
def runKubernetes (w : World) (flags : args) : Outcome :=
  let t1 := [Event.createInterface flags.kubeconfig]
  match w.createInterface flags.kubeconfig with
  | some err => ⟨some (multierrorPrefix err "failed to connect to Kubernetes API."), flags, t1⟩
  | none =>
    let client : KubeClient := ⟨flags.kubeconfig⟩
    let t2 := if flags.controllerOptions.Namespace = "" then
      t1 ++ [Event.getenv "POD_NAMESPACE"] else t1
    let flags : args := if flags.controllerOptions.Namespace = "" then
      { flags with controllerOptions :=
          { flags.controllerOptions with Namespace := w.getenv "POD_NAMESPACE" } }
      else flags
    let t3 := t2 ++ [Event.readMeshConfig flags.meshconfig]
    match w.readMeshConfig flags.meshconfig with
    | .error err => ⟨some (multierrorPrefix err "failed to read mesh configuration."), flags, t3⟩
    | .ok mesh =>
      let t4 := t3 ++ [Event.tprNewClient flags.kubeconfig routingDescriptor
        flags.controllerOptions.Namespace]
      match w.tprNewClient flags.kubeconfig routingDescriptor
          flags.controllerOptions.Namespace with
      | some err => ⟨some (multierrorPrefix err "failed to open a TPR client"), flags, t4⟩
      | none =>
        let tprClient : TprClient :=
          ⟨flags.kubeconfig, routingDescriptor, flags.controllerOptions.Namespace⟩
        let t5 := t4 ++ [Event.registerResources tprClient]
        match w.registerResources tprClient with
        | some err =>
          ⟨some (multierrorPrefix err "failed to register Third-Party Resources."), flags, t5⟩
        | none =>
          let serviceController := ServiceController.kube client mesh flags.controllerOptions
          let sources : List ConfigStoreCache :=
            [ConfigStoreCache.tpr tprClient flags.controllerOptions.ResyncPeriod,
             ConfigStoreCache.ingress client mesh flags.controllerOptions]
          let startup := fun (configController : ConfigStoreCache) (t6 : List Event) =>
            let environment : Environment :=
              { ServiceDiscovery := serviceController
                ServiceAccounts := serviceController
                IstioConfigStore := configController
                SecretRegistry := some client
                Mesh := mesh }
            let t7 := t6 ++ [Event.newDiscoveryService serviceController configController
              environment flags.discoveryOptions]
            match w.newDiscoveryService serviceController configController environment
                flags.discoveryOptions with
            | some err => Outcome.mk (some (errorfDiscovery err)) flags t7
            | none =>
              let discovery : DiscoveryService :=
                ⟨serviceController, configController, environment, flags.discoveryOptions⟩
              let ingressSyncer : StatusSyncer := ⟨mesh, client, flags.controllerOptions⟩
              let stop := w.freshChan
              ⟨none, flags, t7 ++
                [Event.makeChan stop,
                 Event.go (.serviceControllerRun serviceController stop),
                 Event.go (.configControllerRun configController stop),
                 Event.go (.discoveryRun discovery),
                 Event.go (.ingressSyncerRun ingressSyncer stop),
                 Event.waitSignal stop]⟩
          if mesh.IngressControllerMode = .OFF then
            startup (ConfigStoreCache.tpr tprClient flags.controllerOptions.ResyncPeriod) t5
          else
            match w.makeCache sources with
            | some err => ⟨some err, flags, t5 ++ [Event.makeCache sources]⟩
            | none => startup (ConfigStoreCache.aggregate sources) (t5 ++ [Event.makeCache sources])

/-- The body of `else if flags.adapter == VMsAdapter { ... }`. -/
def runVMs (w : World) (flags : args) : Outcome :=
  let vmsConfig := w.defaultConfig
  let t1 : List Event := if flags.vmsArgs.config ≠ "" then
    [Event.loadFromFile flags.vmsArgs.config vmsConfig] else []
  let loaded : Except GoError VmsConfig := if flags.vmsArgs.config ≠ "" then
    w.loadFromFile flags.vmsArgs.config vmsConfig else .ok vmsConfig
  match loaded with
  | .error err => ⟨some (multierrorPrefix err "failed to read vms config file."), flags, t1⟩
  | .ok vmsConfig =>
    let vmsConfig : VmsConfig := if flags.vmsArgs.serverURL ≠ "" then
      { vmsConfig with A8Registry := { vmsConfig.A8Registry with URL := flags.vmsArgs.serverURL } }
      else vmsConfig
    let vmsConfig : VmsConfig := if flags.vmsArgs.authToken ≠ "" then
      { vmsConfig with A8Registry := { vmsConfig.A8Registry with Token := flags.vmsArgs.authToken } }
      else vmsConfig
    let mesh := w.defaultMeshConfig
    let conf : VmsClientConfig :=
      { URL := vmsConfig.A8Registry.URL, AuthToken := vmsConfig.A8Registry.Token }
    let t2 := t1 ++ [Event.vmsClientNew conf]
    match w.vmsClientNew conf with
    | some err => ⟨some (multierrorPrefix err "failed to create VMs client."), flags, t2⟩
    | none =>
      let vmsClient : VmsClient := ⟨conf⟩
      let serviceController := ServiceController.vms vmsClient mesh
      let configController := ConfigStoreCache.memory routingDescriptor
      let environment : Environment :=
        { ServiceDiscovery := serviceController
          ServiceAccounts := serviceController
          IstioConfigStore := configController
          SecretRegistry := none
          Mesh := mesh }
      let t3 := t2 ++ [Event.newDiscoveryService serviceController configController
        environment flags.discoveryOptions]
      match w.newDiscoveryService serviceController configController environment
          flags.discoveryOptions with
      | some err => ⟨some (errorfDiscovery err), flags, t3⟩
      | none =>
        let discovery : DiscoveryService :=
          ⟨serviceController, configController, environment, flags.discoveryOptions⟩
        let stop := w.freshChan
        ⟨none, flags, t3 ++
          [Event.makeChan stop,
           Event.go (.serviceControllerRun serviceController stop),
           Event.go (.configControllerRun configController stop),
           Event.go (.discoveryRun discovery),
           Event.waitSignal stop]⟩

/-- The function `discoveryCmd.RunE`, run on the global `flags`. -/
def runE (w : World) (flags : args) : Outcome :=
  let flags : args := if flags.adapter = "" then { flags with adapter := KubernetesAdapter }
    else flags
  if flags.adapter = KubernetesAdapter then runKubernetes w flags
  else if flags.adapter = VMsAdapter then runVMs w flags
  else ⟨none, flags, []⟩

/-! ## Flag binding (`init`) and the exit path (`main`) -/

/-- A flag value after `pflag` has read its text: `StringVar`, `IntVar`,
`BoolVar` and `DurationVar` (nanoseconds) targets. -/
inductive FlagValue where
  | str (s : String)
  | int (i : Int)
  | bool (b : Bool)
  | duration (d : Int)
  deriving DecidableEq, Repr

/-- One `PersistentFlags().XxxVar(&target, name, value, usage)` call: the flag
name, its one-letter shorthand (empty when it has none), the default, and the
store into the variable whose address the call is given.  A value of the
wrong type is a parse failure. -/
structure Binding where
  name : String
  shorthand : String
  value : FlagValue
  store : FlagValue → args → Option args

/-- The Go zero value of `flags`. -/
def zeroArgs : args :=
  { kubeconfig := ""
    meshconfig := ""
    controllerOptions := { Namespace := "", ResyncPeriod := 0, DomainSuffix := "" }
    discoveryOptions := { Port := 0, EnableProfiling := false, EnableCaching := false }
    adapter := ""
    vmsArgs := { config := "", serverURL := "", authToken := "" } }

/-- The store of a `StringVar` call, given the write to its target. -/
def storeString (set : String → args → args) : FlagValue → args → Option args
  | .str s, a => some (set s a)
  | _, _ => none

/-- The store of an `IntVar` call. -/
def storeInt (set : Int → args → args) : FlagValue → args → Option args
  | .int i, a => some (set i a)
  | _, _ => none

/-- The store of a `BoolVar` call. -/
def storeBool (set : Bool → args → args) : FlagValue → args → Option args
  | .bool b, a => some (set b a)
  | _, _ => none

/-- The store of a `DurationVar` call. -/
def storeDuration (set : Int → args → args) : FlagValue → args → Option args
  | .duration d, a => some (set d a)
  | _, _ => none

/-- The constant `time.Second`, in nanoseconds. -/
def timeSecond : Int := 1000000000

/-- The flags `init` binds on `discoveryCmd`, in the order of the calls, each
with the variable the call takes the address of. -/
def bindings : List Binding :=
  [ ⟨"adapter", "", .str KubernetesAdapter,
      storeString fun s a => { a with adapter := s }⟩,
    ⟨"kubeconfig", "", .str "",
      storeString fun s a => { a with kubeconfig := s }⟩,
    ⟨"meshConfig", "", .str "/etc/istio/config/mesh",
      storeString fun s a => { a with meshconfig := s }⟩,
    ⟨"namespace", "n", .str "",
      storeString fun s a =>
        { a with controllerOptions := { a.controllerOptions with Namespace := s } }⟩,
    ⟨"resync", "", .duration timeSecond,
      storeDuration fun d a =>
        { a with controllerOptions := { a.controllerOptions with ResyncPeriod := d } }⟩,
    ⟨"domain", "", .str "cluster.local",
      storeString fun s a =>
        { a with controllerOptions := { a.controllerOptions with DomainSuffix := s } }⟩,
    ⟨"port", "", .int 8080,
      storeInt fun i a =>
        { a with discoveryOptions := { a.discoveryOptions with Port := i } }⟩,
    ⟨"profile", "", .bool true,
      storeBool fun b a =>
        { a with discoveryOptions := { a.discoveryOptions with EnableProfiling := b } }⟩,
    ⟨"discovery_cache", "", .bool true,
      storeBool fun b a =>
        { a with discoveryOptions := { a.discoveryOptions with EnableCaching := b } }⟩,
    ⟨"vmsconfig", "", .str "",
      storeString fun s a => { a with vmsArgs := { a.vmsArgs with config := s } }⟩,
    ⟨"serverURL", "", .str "",
      storeString fun s a => { a with vmsArgs := { a.vmsArgs with serverURL := s } }⟩,
    ⟨"authToken", "", .str "",
      storeString fun s a => { a with vmsArgs := { a.vmsArgs with config := s } }⟩ ]

/-- The global `flags` once `init` has run: every `XxxVar` call stores its
default into its target. -/
def initFlags : args :=
  bindings.foldl (fun a b => (b.store b.value a).getD a) zeroArgs

/-- The binding a command-line flag name selects: the long name, or the
shorthand when the binding has one. -/
def lookupFlag (name : String) : Option Binding :=
  bindings.find? fun b => b.name = name ∨ (b.shorthand ≠ "" ∧ b.shorthand = name)

/-- Setting one flag from the command line. -/
def setFlag (flags : args) (arg : String × FlagValue) : Option args :=
  match lookupFlag arg.1 with
  | none => none
  | some b => b.store arg.2 flags

/-- Flag parsing: the command line, as pairs of flag name and value, applied
from left to right to the flags `init` left.  `none` is a parse error (the
flags `cmd.AddFlags` adds to the root command are not modelled). -/
def parseFlags (cmdline : List (String × FlagValue)) : Option args :=
  cmdline.foldlM setFlag initFlags

/-- The call `rootCmd.Execute()` for the `discovery` command: the flags are
parsed, then the run function runs on them.  `none` is a flag error, in which
case the run function is not called. -/
def execute (w : World) (cmdline : List (String × FlagValue)) : Option Outcome :=
  (parseFlags cmdline).map (runE w)

/-- The function `main`, as the process exit status: `rootCmd.Execute()`
returns the flag error or the error of the run function, any error leads to
`os.Exit(-1)`, and returning from `main` exits with status zero. -/
def main (w : World) (cmdline : List (String × FlagValue)) : Int :=
  match execute w cmdline with
  | none => -1
  | some o =>
    match o.err with
    | some _ => -1
    | none => 0

/-! ## Observations on a trace -/

/-- The task of a `go` entry. -/
def Event.task? : Event → Option Task
  | .go t => some t
  | _ => none

/-- The tasks a run launched, in launch order. -/
def launched (trace : List Event) : List Task :=
  trace.filterMap Event.task?

/-- The configurations handed to `vmsclient.New`. -/
def clientConfigs (trace : List Event) : List VmsClientConfig :=
  trace.filterMap fun
    | .vmsClientNew conf => some conf
    | _ => none

/-- The channels handed to `cmd.WaitSignal`. -/
def waitedOn (trace : List Event) : List Chan :=
  trace.filterMap fun
    | .waitSignal c => some c
    | _ => none

/-- The channels created with `make`. -/
def madeChans (trace : List Event) : List Chan :=
  trace.filterMap fun
    | .makeChan c => some c
    | _ => none

/-- Whether an entry is a call of the VMs branch only. -/
def Event.isVMsStep : Event → Bool
  | .loadFromFile _ _ => true
  | .vmsClientNew _ => true
  | _ => false

/-- Whether an entry is a fallible startup step that fails in the world. -/
def Event.fails (w : World) : Event → Bool
  | .createInterface k => (w.createInterface k).isSome
  | .readMeshConfig p => !(w.readMeshConfig p).toBool
  | .tprNewClient k d n => (w.tprNewClient k d n).isSome
  | .registerResources c => (w.registerResources c).isSome
  | .makeCache s => (w.makeCache s).isSome
  | .newDiscoveryService s c e o => (w.newDiscoveryService s c e o).isSome
  | .loadFromFile p c => !(w.loadFromFile p c).toBool
  | .vmsClientNew c => (w.vmsClientNew c).isSome
  | _ => false

/-- Whether an entry is a fallible startup step. -/
def Event.isFallible : Event → Bool
  | .createInterface _ => true
  | .readMeshConfig _ => true
  | .tprNewClient _ _ _ => true
  | .registerResources _ => true
  | .makeCache _ => true
  | .newDiscoveryService _ _ _ _ => true
  | .loadFromFile _ _ => true
  | .vmsClientNew _ => true
  | _ => false

/-- Whether every `go` entry comes after every fallible step of the trace. -/
def launchesLast : List Event → Bool
  | [] => true
  | .go _ :: rest => rest.all (fun e => !e.isFallible) && launchesLast rest
  | _ :: rest => launchesLast rest

/-- The stop channel a launch is given, if the launched call takes one. -/
def Task.stop? : Task → Option Chan
  | .serviceControllerRun _ c => some c
  | .configControllerRun _ c => some c
  | .discoveryRun _ => none
  | .ingressSyncerRun _ c => some c

/-- The kind of a launched task, without its arguments. -/
inductive TaskKind where
  | serviceController
  | configController
  | discoveryService
  | ingressStatusSyncer
  deriving DecidableEq, Repr

/-- The kind of a task. -/
def Task.kind : Task → TaskKind
  | .serviceControllerRun _ _ => .serviceController
  | .configControllerRun _ _ => .configController
  | .discoveryRun _ => .discoveryService
  | .ingressSyncerRun _ _ => .ingressStatusSyncer

/-- The source lists handed to `aggregate.MakeCache`. -/
def aggregatesBuilt (trace : List Event) : List (List ConfigStoreCache) :=
  trace.filterMap fun
    | .makeCache sources => some sources
    | _ => none

/-- The config controllers handed to `envoy.NewDiscoveryService`. -/
def configControllers (trace : List Event) : List ConfigStoreCache :=
  trace.filterMap fun
    | .newDiscoveryService _ config _ _ => some config
    | _ => none

/-- The namespaces handed to `tpr.NewClient`. -/
def tprNamespaces (trace : List Event) : List String :=
  trace.filterMap fun
    | .tprNewClient _ _ ns => some ns
    | _ => none

/-- The namespace a service controller was built with. -/
def ServiceController.namespaces : ServiceController → List String
  | .kube _ _ options => [options.Namespace]
  | .vms _ _ => []

mutual
/-- The namespaces a config controller was built with. -/
def ConfigStoreCache.namespaces : ConfigStoreCache → List String
  | .tpr client _ => [client.namespace_]
  | .ingress _ _ options => [options.Namespace]
  | .aggregate sources => namespacesOfSources sources
  | .memory _ => []
/-- The namespaces a list of config sources was built with. -/
def namespacesOfSources : List ConfigStoreCache → List String
  | [] => []
  | c :: cs => c.namespaces ++ namespacesOfSources cs
end

/-- The namespaces a launched task carries. -/
def Task.namespaces : Task → List String
  | .serviceControllerRun c _ => c.namespaces
  | .configControllerRun c _ => c.namespaces
  | .discoveryRun d => d.services.namespaces ++ d.config.namespaces
  | .ingressSyncerRun s _ => [s.options.Namespace]

/-- The namespaces an entry of the trace carries: the namespace argument of
`tpr.NewClient` and the namespace of every client, controller and syncer that
is passed to a collaborator or launched. -/
def Event.namespaces : Event → List String
  | .tprNewClient _ _ ns => [ns]
  | .registerResources client => [client.namespace_]
  | .makeCache sources => namespacesOfSources sources
  | .newDiscoveryService services config _ _ => services.namespaces ++ config.namespaces
  | .go t => t.namespaces
  | _ => []

/-- All namespaces used in a run. -/
def namespacesUsed (trace : List Event) : List String :=
  trace.flatMap Event.namespaces

/-- The namespace scope as the specification words it: the environment-derived
default `p` when the flag value `n` is unset, else `n` unchanged. -/
def specNamespaceScope (n p : String) : String :=
  if n = "" then p else n

/-- The precedence rule as the specification words it: the explicit override
when it is non-empty, otherwise the file value when a config path is given,
otherwise the default. -/
def specResolve (override path fileValue defaultValue : String) : String :=
  if override ≠ "" then override
  else if path ≠ "" then fileValue
  else defaultValue

/-- The three parts of "no partial start", for one outcome. -/
def NoPartialStart (w : World) (o : Outcome) : Prop :=
  (o.err ≠ none → launched o.trace = []) ∧
  (launched o.trace ≠ [] → o.err = none ∧ ∀ e ∈ o.trace, e.fails w = false) ∧
  launchesLast o.trace = true

/-- The stage messages the run function puts in front of an error with
`multierror.Prefix`. -/
def stageMessages : List String :=
  ["failed to connect to Kubernetes API.",
   "failed to read mesh configuration.",
   "failed to open a TPR client",
   "failed to register Third-Party Resources.",
   "failed to read vms config file.",
   "failed to create VMs client."]

/-! ## Sample inputs -/

/-- A world in which every collaborator call succeeds; the mesh configuration
read from file has the given ingress mode. -/
def sampleWorld (mode : IngressControllerMode) : World :=
  { getenv := fun name => if name = "POD_NAMESPACE" then "istio-system" else ""
    defaultConfig := ⟨⟨"http://default-registry", "default-token"⟩⟩
    defaultMeshConfig := ⟨.OFF, "default"⟩
    freshChan := ⟨0⟩
    createInterface := fun _ => none
    readMeshConfig := fun _ => .ok ⟨mode, "mesh"⟩
    tprNewClient := fun _ _ _ => none
    registerResources := fun _ => none
    makeCache := fun _ => none
    newDiscoveryService := fun _ _ _ _ => none
    loadFromFile := fun _ _ => .ok ⟨⟨"http://file-registry", "file-token"⟩⟩
    vmsClientNew := fun _ => none }

/-- The flags of `pilot discovery --adapter VMs`. -/
def vmsFlags : args :=
  { initFlags with adapter := VMsAdapter }

/-- The command line `--adapter VMs --serverURL http://registry:8080
--authToken secret`. -/
def tokenCmdline : List (String × FlagValue) :=
  [("adapter", .str "VMs"), ("serverURL", .str "http://registry:8080"),
   ("authToken", .str "secret")]

/-! ## Properties of the run function -/

/-- An empty or `Kubernetes` adapter runs the Kubernetes branch, with the
adapter flag set to `Kubernetes`. -/
theorem runE_kubernetes (w : World) (flags : args)
    (h : flags.adapter = "" ∨ flags.adapter = KubernetesAdapter) :
    runE w flags = runKubernetes w { flags with adapter := KubernetesAdapter } := by
  rcases h with h | h
  · simp [runE, h]
  · have hne : ¬ flags.adapter = "" := by rw [h]; decide
    have : ({ flags with adapter := KubernetesAdapter } : args) = flags := by
      cases flags; simp_all
    simp [runE, hne, h, this]

/-- The `VMs` adapter runs the VMs branch. -/
theorem runE_vms (w : World) (flags : args) (h : flags.adapter = VMsAdapter) :
    runE w flags = runVMs w flags := by
  have h1 : ¬ flags.adapter = "" := by rw [h]; decide
  have h2 : ¬ flags.adapter = KubernetesAdapter := by rw [h]; decide
  unfold runE
  simp only [h1, h2, if_false]
  simp [h]

/-- Any other adapter runs neither branch. -/
theorem runE_other (w : World) (flags : args) (h1 : flags.adapter ≠ "")
    (h2 : flags.adapter ≠ KubernetesAdapter) (h3 : flags.adapter ≠ VMsAdapter) :
    runE w flags = ⟨none, flags, []⟩ := by
  simp [runE, h1, h2, h3]

theorem runKubernetes_noPartialStart (w : World) (flags : args) :
    NoPartialStart w (runKubernetes w flags) := by
  unfold runKubernetes NoPartialStart
  simp only []
  repeat' split
  all_goals simp_all [launched, Event.task?, launchesLast, Event.isFallible, Event.fails,
    Except.toBool]

theorem runVMs_noPartialStart (w : World) (flags : args) :
    NoPartialStart w (runVMs w flags) := by
  unfold runVMs NoPartialStart
  simp only []
  repeat' split
  all_goals simp_all [launched, Event.task?, launchesLast, Event.isFallible, Event.fails,
    Except.toBool]

/-- C4, no partial start.  Whenever the run function returns an error, no task
has been launched; whenever a task has been launched, the run returned no error
and no fallible startup step of the run failed; and in every run all launches
come after all fallible steps. -/
theorem runE_no_partial_start (w : World) (flags : args) :
    ((runE w flags).err ≠ none → launched (runE w flags).trace = []) ∧
    (launched (runE w flags).trace ≠ [] →
      (runE w flags).err = none ∧ ∀ e ∈ (runE w flags).trace, e.fails w = false) ∧
    launchesLast (runE w flags).trace = true := by
  by_cases hk : flags.adapter = "" ∨ flags.adapter = KubernetesAdapter
  · rw [runE_kubernetes w flags hk]
    exact runKubernetes_noPartialStart w _
  · by_cases hv : flags.adapter = VMsAdapter
    · rw [runE_vms w flags hv]
      exact runVMs_noPartialStart w _
    · rw [runE_other w flags (fun h => hk (Or.inl h)) (fun h => hk (Or.inr h)) hv]
      simp [launched, launchesLast]

/-- Witness for C4: when the Kubernetes API cannot be reached the run returns
an error and nothing has been launched. -/
theorem runE_no_partial_start_witness :
    (runE { sampleWorld .OFF with createInterface := fun _ => some (.plain "no route") }
        initFlags).err ≠ none ∧
    launched (runE { sampleWorld .OFF with createInterface := fun _ => some (.plain "no route") }
        initFlags).trace = [] :=
  ⟨fun h => (nomatch h), (runE_no_partial_start _ initFlags).1 (fun h => (nomatch h))⟩

/-- C1, evaluated on the code: for a platform tag that is neither empty,
`Kubernetes` nor `VMs`, the run function returns nil (no error) with an empty
trace, so nothing is launched, and `main` exits with status zero. -/
theorem runE_unrecognized_adapter_returns_nil (w : World) (flags : args)
    (h1 : flags.adapter ≠ "") (h2 : flags.adapter ≠ KubernetesAdapter)
    (h3 : flags.adapter ≠ VMsAdapter) :
    (runE w flags).err = none ∧ (runE w flags).trace = [] ∧
    launched (runE w flags).trace = [] ∧
    main w [("adapter", .str flags.adapter)] = 0 := by
  rw [runE_other w flags h1 h2 h3]
  refine ⟨rfl, rfl, rfl, ?_⟩
  have hp : parseFlags [("adapter", .str flags.adapter)] =
      some { initFlags with adapter := flags.adapter } := by
    simp [parseFlags, setFlag, lookupFlag, bindings, storeString, List.foldlM]
  have h1' : ({ initFlags with adapter := flags.adapter } : args).adapter ≠ "" := h1
  simp [main, execute, hp, runE_other w _ h1' h2 h3]

/-- Witness for C1 at the tag `Bogus`. -/
theorem runE_unrecognized_adapter_returns_nil_witness :
    (runE (sampleWorld .OFF) { initFlags with adapter := "Bogus" }).err = none ∧
    main (sampleWorld .OFF) [("adapter", .str "Bogus")] = 0 :=
  have h := runE_unrecognized_adapter_returns_nil (sampleWorld .OFF)
    { initFlags with adapter := "Bogus" } (by decide) (by decide) (by decide)
  ⟨h.1, h.2.2.2⟩

/-- C6, an empty platform tag runs as `Kubernetes`: the whole outcome (returned
error, flags after the run, trace with the environment and the launches) is the
same as with the tag `Kubernetes`, it is the outcome of the Kubernetes branch,
and no step of the VMs branch occurs in it; `Kubernetes` is also the default of
the `--adapter` flag. -/
theorem runE_empty_adapter_is_kubernetes (w : World) (flags : args) :
    runE w { flags with adapter := "" } = runE w { flags with adapter := KubernetesAdapter } ∧
    runE w { flags with adapter := "" } =
      runKubernetes w { flags with adapter := KubernetesAdapter } ∧
    (∀ e ∈ (runE w { flags with adapter := "" }).trace, e.isVMsStep = false) ∧
    initFlags.adapter = KubernetesAdapter := by
  have h1 := runE_kubernetes w { flags with adapter := "" } (Or.inl rfl)
  have h2 := runE_kubernetes w { flags with adapter := KubernetesAdapter } (Or.inr rfl)
  refine ⟨h1.trans h2.symm, h1, ?_, by decide⟩
  rw [h1]
  unfold runKubernetes
  simp only []
  repeat' split
  all_goals simp_all [Event.isVMsStep]

/-- The launches of a successful run of the Kubernetes branch, by kind and
stop channel. -/
theorem runKubernetes_launches (w : World) (flags : args)
    (hok : (runKubernetes w flags).err = none) :
    (launched (runKubernetes w flags).trace).map (fun t => (t.kind, t.stop?)) =
      [(.serviceController, some w.freshChan), (.configController, some w.freshChan),
       (.discoveryService, none), (.ingressStatusSyncer, some w.freshChan)] ∧
    madeChans (runKubernetes w flags).trace = [w.freshChan] ∧
    waitedOn (runKubernetes w flags).trace = [w.freshChan] := by
  revert hok
  unfold runKubernetes
  simp only []
  repeat' split
  all_goals simp_all [launched, Event.task?, Task.kind, Task.stop?, madeChans, waitedOn]

/-- The launches of a successful run of the VMs branch, by kind and stop
channel. -/
theorem runVMs_launches (w : World) (flags : args)
    (hok : (runVMs w flags).err = none) :
    (launched (runVMs w flags).trace).map (fun t => (t.kind, t.stop?)) =
      [(.serviceController, some w.freshChan), (.configController, some w.freshChan),
       (.discoveryService, none)] ∧
    madeChans (runVMs w flags).trace = [w.freshChan] ∧
    waitedOn (runVMs w flags).trace = [w.freshChan] := by
  revert hok
  unfold runVMs
  simp only []
  repeat' split
  all_goals simp_all [launched, Event.task?, Task.kind, Task.stop?, madeChans, waitedOn]

/-- A run of the Kubernetes branch returns nil exactly when none of the
fallible steps it took fails in the world. -/
theorem runKubernetes_succeeds_iff (w : World) (flags : args) :
    (runKubernetes w flags).err = none ↔
      ∀ e ∈ (runKubernetes w flags).trace, e.fails w = false := by
  unfold runKubernetes
  simp only []
  repeat' split
  all_goals simp_all [Event.fails, Except.toBool]

/-- A run of the VMs branch returns nil exactly when none of the fallible steps
it took fails in the world. -/
theorem runVMs_succeeds_iff (w : World) (flags : args) :
    (runVMs w flags).err = none ↔ ∀ e ∈ (runVMs w flags).trace, e.fails w = false := by
  unfold runVMs
  simp only []
  repeat' split
  all_goals simp_all [Event.fails, Except.toBool]

/-- C10, the launched tasks depend on the platform branch only.  A startup is
successful (the run function returns nil) exactly when none of the fallible
steps it took fails in the world; a successful run of the Kubernetes branch
(empty or `Kubernetes` tag) launches exactly the service controller, the config
controller, the discovery service and the ingress status syncer, whatever the
ingress mode, and a successful run of the VMs branch launches exactly the first
three. -/
theorem runE_launched_kinds (w : World) (flags : args) :
    ((runE w flags).err = none ↔ ∀ e ∈ (runE w flags).trace, e.fails w = false) ∧
    ((runE w flags).err = none →
      flags.adapter = "" ∨ flags.adapter = KubernetesAdapter →
      (launched (runE w flags).trace).map Task.kind =
        [.serviceController, .configController, .discoveryService, .ingressStatusSyncer]) ∧
    ((runE w flags).err = none →
      flags.adapter = VMsAdapter →
      (launched (runE w flags).trace).map Task.kind =
        [.serviceController, .configController, .discoveryService]) := by
  refine ⟨?_, ?_, ?_⟩
  · by_cases hk : flags.adapter = "" ∨ flags.adapter = KubernetesAdapter
    · rw [runE_kubernetes w flags hk]
      exact runKubernetes_succeeds_iff w _
    · by_cases hv : flags.adapter = VMsAdapter
      · rw [runE_vms w flags hv]
        exact runVMs_succeeds_iff w _
      · rw [runE_other w flags (fun h => hk (Or.inl h)) (fun h => hk (Or.inr h)) hv]
        simp
  · intro hok hk
    rw [runE_kubernetes w flags hk] at hok ⊢
    have h := congrArg (List.map Prod.fst) (runKubernetes_launches w _ hok).1
    simpa [List.map_map, Function.comp_def] using h
  · intro hok hv
    rw [runE_vms w flags hv] at hok ⊢
    have h := congrArg (List.map Prod.fst) (runVMs_launches w _ hok).1
    simpa [List.map_map, Function.comp_def] using h

/-- Witness for C10: in a world where every collaborator call succeeds, the
default flags start four tasks on the Kubernetes branch with ingress mode OFF
and with ingress mode STRICT, and `--adapter VMs` starts three tasks on the VMs
branch. -/
theorem runE_launched_kinds_witness :
    ((runE (sampleWorld .OFF) initFlags).err = none ∧
      (launched (runE (sampleWorld .OFF) initFlags).trace).map Task.kind =
        [.serviceController, .configController, .discoveryService,
         .ingressStatusSyncer]) ∧
    ((runE (sampleWorld .STRICT) initFlags).err = none ∧
      (launched (runE (sampleWorld .STRICT) initFlags).trace).map Task.kind =
        [.serviceController, .configController, .discoveryService,
         .ingressStatusSyncer]) ∧
    ((runE (sampleWorld .OFF) vmsFlags).err = none ∧
      (launched (runE (sampleWorld .OFF) vmsFlags).trace).map Task.kind =
        [.serviceController, .configController, .discoveryService]) :=
  ⟨⟨rfl, (runE_launched_kinds (sampleWorld .OFF) initFlags).2.1 rfl (Or.inr (by decide))⟩,
   ⟨rfl, (runE_launched_kinds (sampleWorld .STRICT) initFlags).2.1 rfl (Or.inr (by decide))⟩,
   ⟨rfl, (runE_launched_kinds (sampleWorld .OFF) vmsFlags).2.2 rfl (by decide)⟩⟩

/-- C2, evaluated on the code: on the command line `--adapter VMs --serverURL
http://registry:8080 --authToken secret` the token is stored in the config
path and the token field stays empty; the VMs branch then loads the file named
`secret`: when that load fails the run ends with the file error and no
registry client is created, and when the load leaves the configuration as it
was the client is created with the default token, not with `secret`. -/
theorem authToken_flag_stores_config_path (w : World) (e : GoError) :
    (parseFlags tokenCmdline).map (fun f => f.vmsArgs) =
      some ⟨"secret", "http://registry:8080", ""⟩ ∧
    (∃ o, execute { w with loadFromFile := fun _ _ => .error e } tokenCmdline = some o ∧
      o.err = some (multierrorPrefix e "failed to read vms config file.") ∧
      o.trace = [Event.loadFromFile "secret" w.defaultConfig]) ∧
    (∃ o, execute { w with loadFromFile := fun _ c => .ok c } tokenCmdline = some o ∧
      o.trace.head? = some (Event.loadFromFile "secret" w.defaultConfig) ∧
      clientConfigs o.trace =
        [⟨"http://registry:8080", w.defaultConfig.A8Registry.Token⟩]) := by
  have hp : parseFlags tokenCmdline = some
      { initFlags with adapter := VMsAdapter,
                       vmsArgs := ⟨"secret", "http://registry:8080", ""⟩ } := by
    decide
  refine ⟨by rw [hp]; rfl, ?_, ?_⟩
  · refine ⟨_, by rw [execute, hp]; rfl, ?_, ?_⟩
    · rw [runE_vms _ _ rfl]
      simp [runVMs]
    · rw [runE_vms _ _ rfl]
      simp [runVMs]
  · refine ⟨_, by rw [execute, hp]; rfl, ?_, ?_⟩
    · rw [runE_vms _ _ rfl]
      unfold runVMs
      simp only []
      repeat' split
      all_goals simp_all
    · rw [runE_vms _ _ rfl]
      unfold runVMs
      simp only []
      repeat' split
      all_goals simp_all [clientConfigs]

/-- C3, precedence override > file > default on the VMs branch: whenever file
loading succeeds (or no config path is given), `vmsclient.New` is called
exactly once, and both the URL and the token it receives are the explicit
override when that is non-empty, otherwise the value loaded from the file when
a config path is given, otherwise the value of the default config. -/
theorem runE_vms_registry_precedence (w : World) (flags : args) (fileCfg : VmsConfig)
    (hadapter : flags.adapter = VMsAdapter)
    (hload : flags.vmsArgs.config ≠ "" →
      w.loadFromFile flags.vmsArgs.config w.defaultConfig = .ok fileCfg) :
    clientConfigs (runE w flags).trace =
      [{ URL := specResolve flags.vmsArgs.serverURL flags.vmsArgs.config
           fileCfg.A8Registry.URL w.defaultConfig.A8Registry.URL
         AuthToken := specResolve flags.vmsArgs.authToken flags.vmsArgs.config
           fileCfg.A8Registry.Token w.defaultConfig.A8Registry.Token }] := by
  rw [runE_vms w flags hadapter]
  unfold runVMs specResolve
  simp only []
  by_cases hc : flags.vmsArgs.config = ""
  · simp only [hc, ne_eq, not_true_eq_false, if_false]
    repeat' split
    all_goals simp_all [clientConfigs]
  · simp only [hload hc, ne_eq, hc, not_false_eq_true, if_true]
    repeat' split
    all_goals simp_all [clientConfigs]

/-- Witness for C3: a config path and a URL override are given, no token
override; the client gets the override URL and the token of the file. -/
theorem runE_vms_registry_precedence_witness :
    clientConfigs (runE (sampleWorld .OFF)
      { vmsFlags with vmsArgs := ⟨"/etc/a8.yaml", "http://cli-registry", ""⟩ }).trace =
      [⟨"http://cli-registry", "file-token"⟩] :=
  runE_vms_registry_precedence (sampleWorld .OFF)
    { vmsFlags with vmsArgs := ⟨"/etc/a8.yaml", "http://cli-registry", ""⟩ }
    ⟨⟨"http://file-registry", "file-token"⟩⟩ (by decide) (fun _ => rfl)

/-- Every error the run function returns is a collaborator error with one of
the stage messages in front, or the `fmt.Errorf` error of the discovery-service
stage, or the bare error of `aggregate.MakeCache`. -/
theorem runE_error_shape (w : World) (flags : args) (r : GoError)
    (h : (runE w flags).err = some r) :
    (∃ e pfx, r = multierrorPrefix e pfx ∧ pfx ∈ stageMessages) ∨
    (∃ e, r = errorfDiscovery e) ∨
    (∃ sources, w.makeCache sources = some r) := by
  by_cases hk : flags.adapter = "" ∨ flags.adapter = KubernetesAdapter
  · rw [runE_kubernetes w flags hk] at h
    revert h
    unfold runKubernetes
    simp only []
    repeat' split
    all_goals first
      | (intro h; simp at h; done)
      | (intro h; simp at h; subst h
         first
           | exact Or.inl ⟨_, _, rfl, by simp [stageMessages]⟩
           | exact Or.inr (Or.inl ⟨_, rfl⟩)
           | exact Or.inr (Or.inr ⟨_, by assumption⟩))
  · by_cases hv : flags.adapter = VMsAdapter
    · rw [runE_vms w flags hv] at h
      revert h
      unfold runVMs
      simp only []
      repeat' split
      all_goals first
        | (intro h; simp at h; done)
        | (intro h; simp at h; subst h
           first
             | exact Or.inl ⟨_, _, rfl, by simp [stageMessages]⟩
             | exact Or.inr (Or.inl ⟨_, rfl⟩))
    · rw [runE_other w flags (fun h => hk (Or.inl h)) (fun h => hk (Or.inr h)) hv] at h
      simp at h

/-- C5, evaluated on the code: on the Kubernetes branch with an ingress mode
other than OFF, when `aggregate.MakeCache` fails with the error `e` the run
function returns `e` itself, without a stage message in front of it. -/
theorem runE_aggregate_error_unwrapped (w : World) (flags : args) (e : GoError)
    (rest : String) :
    (runE { w with createInterface := fun _ => none
                   readMeshConfig := fun _ => .ok ⟨.DEFAULT, rest⟩
                   tprNewClient := fun _ _ _ => none
                   registerResources := fun _ => none
                   makeCache := fun _ => some e }
      { flags with adapter := KubernetesAdapter }).err = some e := by
  rw [runE_kubernetes _ _ (Or.inr rfl)]
  unfold runKubernetes
  simp

/-- C7, the config sources of the Kubernetes branch are decided by the ingress
mode alone.  Once the client, the mesh configuration, the TPR client and the
resource registration have succeeded: with mode OFF `aggregate.MakeCache` is not
called and the config controller is the TPR controller over the descriptor
`[route-rule, destination-policy]`; with any other mode `aggregate.MakeCache` is
called once, on the two sources `[TPR controller, ingress controller]` in that
order, and when it succeeds the config controller is that aggregate. -/
theorem runE_kubernetes_config_sources (w : World) (flags : args) (mesh : ProxyMeshConfig)
    (hadapter : flags.adapter = "" ∨ flags.adapter = KubernetesAdapter)
    (hc : w.createInterface flags.kubeconfig = none)
    (hm : w.readMeshConfig flags.meshconfig = .ok mesh)
    (ht : w.tprNewClient flags.kubeconfig routingDescriptor
      (specNamespaceScope flags.controllerOptions.Namespace (w.getenv "POD_NAMESPACE")) = none)
    (hr : w.registerResources ⟨flags.kubeconfig, routingDescriptor,
      specNamespaceScope flags.controllerOptions.Namespace (w.getenv "POD_NAMESPACE")⟩ = none) :
    (mesh.IngressControllerMode = .OFF →
      aggregatesBuilt (runE w flags).trace = [] ∧
      configControllers (runE w flags).trace =
        [.tpr ⟨flags.kubeconfig, [.RouteRuleDescriptor, .DestinationPolicyDescriptor],
            specNamespaceScope flags.controllerOptions.Namespace (w.getenv "POD_NAMESPACE")⟩
          flags.controllerOptions.ResyncPeriod]) ∧
    (mesh.IngressControllerMode ≠ .OFF →
      aggregatesBuilt (runE w flags).trace =
        [[.tpr ⟨flags.kubeconfig, [.RouteRuleDescriptor, .DestinationPolicyDescriptor],
              specNamespaceScope flags.controllerOptions.Namespace (w.getenv "POD_NAMESPACE")⟩
            flags.controllerOptions.ResyncPeriod,
          .ingress ⟨flags.kubeconfig⟩ mesh
            { flags.controllerOptions with
              Namespace := specNamespaceScope flags.controllerOptions.Namespace
                (w.getenv "POD_NAMESPACE") }]] ∧
      (w.makeCache
        [.tpr ⟨flags.kubeconfig, [.RouteRuleDescriptor, .DestinationPolicyDescriptor],
              specNamespaceScope flags.controllerOptions.Namespace (w.getenv "POD_NAMESPACE")⟩
            flags.controllerOptions.ResyncPeriod,
          .ingress ⟨flags.kubeconfig⟩ mesh
            { flags.controllerOptions with
              Namespace := specNamespaceScope flags.controllerOptions.Namespace
                (w.getenv "POD_NAMESPACE") }] = none →
        configControllers (runE w flags).trace =
          [.aggregate
            [.tpr ⟨flags.kubeconfig, [.RouteRuleDescriptor, .DestinationPolicyDescriptor],
                specNamespaceScope flags.controllerOptions.Namespace
                  (w.getenv "POD_NAMESPACE")⟩
              flags.controllerOptions.ResyncPeriod,
             .ingress ⟨flags.kubeconfig⟩ mesh
              { flags.controllerOptions with
                Namespace := specNamespaceScope flags.controllerOptions.Namespace
                  (w.getenv "POD_NAMESPACE") }]])) := by
  rw [runE_kubernetes w flags hadapter]
  unfold runKubernetes
  unfold specNamespaceScope at *
  simp only [hc, hm]
  by_cases hn : flags.controllerOptions.Namespace = ""
  · simp only [hn, if_true] at ht hr ⊢
    simp only [hm, ht, hr]
    constructor
    · intro hoff
      simp only [hoff, if_true]
      split <;> simp [aggregatesBuilt, configControllers, routingDescriptor]
    · intro hon
      simp only [hon, if_false]
      constructor
      · repeat' split
        all_goals simp_all [aggregatesBuilt, routingDescriptor]
      · intro hmk
        simp only [routingDescriptor] at hmk ⊢
        simp only [hmk]
        split <;> simp [configControllers]
  · simp only [hn, if_false] at ht hr ⊢
    simp only [hm, ht, hr]
    have hopt : ({ flags.controllerOptions with
        Namespace := flags.controllerOptions.Namespace } : ControllerOptions) =
        flags.controllerOptions := rfl
    simp only [hopt]
    constructor
    · intro hoff
      simp only [hoff, if_true]
      split <;> simp [aggregatesBuilt, configControllers, routingDescriptor]
    · intro hon
      simp only [hon, if_false]
      constructor
      · repeat' split
        all_goals simp_all [aggregatesBuilt, routingDescriptor]
      · intro hmk
        simp only [routingDescriptor] at hmk ⊢
        simp only [hmk]
        split <;> simp [configControllers]

/-- Witness for C7: with ingress mode STRICT the default flags build the
aggregate of the TPR controller and the ingress controller, in that order. -/
theorem runE_kubernetes_config_sources_witness :
    configControllers (runE (sampleWorld .STRICT) initFlags).trace =
      [.aggregate
        [.tpr ⟨"", [.RouteRuleDescriptor, .DestinationPolicyDescriptor], "istio-system"⟩
          1000000000,
         .ingress ⟨""⟩ ⟨.STRICT, "mesh"⟩ ⟨"istio-system", 1000000000, "cluster.local"⟩]] :=
  ((runE_kubernetes_config_sources (sampleWorld .STRICT) initFlags ⟨.STRICT, "mesh"⟩
    (Or.inr (by decide)) rfl rfl rfl rfl).2 (by decide)).2 rfl

/-- C9, the namespace fallback on the Kubernetes branch.  Once the client is
connected and the mesh configuration is read, with `n` the namespace flag and
`p` the value of `POD_NAMESPACE`: the namespace left in the flags, the one
handed to `tpr.NewClient` (called exactly once), and every namespace carried by
a client, controller or syncer of the run is `p` when `n` is empty and `n`
unchanged otherwise. -/
theorem runE_namespace_fallback (w : World) (flags : args) (mesh : ProxyMeshConfig)
    (n p : String)
    (hadapter : flags.adapter = "" ∨ flags.adapter = KubernetesAdapter)
    (hn : flags.controllerOptions.Namespace = n)
    (hp : w.getenv "POD_NAMESPACE" = p)
    (hc : w.createInterface flags.kubeconfig = none)
    (hm : w.readMeshConfig flags.meshconfig = .ok mesh) :
    (runE w flags).flags.controllerOptions.Namespace = specNamespaceScope n p ∧
    tprNamespaces (runE w flags).trace = [specNamespaceScope n p] ∧
    ∀ ns ∈ namespacesUsed (runE w flags).trace, ns = specNamespaceScope n p := by
  subst hn hp
  rw [runE_kubernetes w flags hadapter]
  unfold runKubernetes specNamespaceScope
  simp only [hc]
  by_cases hn : flags.controllerOptions.Namespace = ""
  · simp only [hn, if_true]
    simp only [hm]
    repeat' split
    all_goals simp_all [tprNamespaces, namespacesUsed, Event.namespaces, Task.namespaces,
      ServiceController.namespaces, ConfigStoreCache.namespaces, namespacesOfSources]
  · simp only [hn, if_false]
    simp only [hm]
    repeat' split
    all_goals simp_all [tprNamespaces, namespacesUsed, Event.namespaces, Task.namespaces,
      ServiceController.namespaces, ConfigStoreCache.namespaces, namespacesOfSources]

/-- Witness for C9: the namespace flag is unset and `POD_NAMESPACE` is
`istio-system`. -/
theorem runE_namespace_fallback_witness :
    tprNamespaces (runE (sampleWorld .DEFAULT) initFlags).trace = ["istio-system"] ∧
    "istio-system" ∈ namespacesUsed (runE (sampleWorld .DEFAULT) initFlags).trace :=
  ⟨(runE_namespace_fallback (sampleWorld .DEFAULT) initFlags ⟨.DEFAULT, "mesh"⟩ ""
    "istio-system" (Or.inr (by decide)) rfl rfl rfl rfl).2.1, by decide⟩

end Pilot
